import Mathlib

/-!
Shallow embedding of the stock/news aggregation core of the repository
(`api/services/stock_api_service.py`, `api/services/news_service.py`,
`api/services/sentiment_service.py` and the freshness / scoring logic of the
views), together with theorems settling the specification claims.

Python `Decimal`/float arithmetic is modelled over `ℚ`, timestamps over `ℤ`
(seconds), and fallible calls over explicit outcome types.
-/

namespace StockCore

/-! ### Sentiment classifier fallback (`sentiment_service.py`) -/

/-- Sentiment labels returned by `SentimentService`. -/
inductive Sentiment
  | Bullish
  | Bearish
  | Neutral
deriving DecidableEq

/-- Lowercasing of a character sequence, modelling Python `str.lower()` on the
ASCII range (`Char.toLower` maps `A`-`Z` to `a`-`z` and is the identity
elsewhere, which is all the keyword matching needs). -/
def toLowerList (s : List Char) : List Char := s.map Char.toLower

/-- Boolean list-prefix test used to implement the substring test below. -/
def isPrefixL : List Char → List Char → Bool
  | [], _ => true
  | _ :: _, [] => false
  | a :: as, b :: bs => decide (a = b) && isPrefixL as bs

/-- Python substring containment `needle in hay`. -/
def containsSub (needle : List Char) : List Char → Bool
  | [] => needle.isEmpty
  | b :: t => isPrefixL needle (b :: t) || containsSub needle t

/-- Bullish keyword list of `_analyze_with_simple_algorithm`
(`sentiment_service.py` lines 116-121), including the duplicated
final entry exactly as in the source. -/
def bullish_keywords : List String :=
  ["surge", "rally", "gain", "rise", "up", "bullish", "buy", "outperform",
   "growth", "profit", "earnings beat", "upgrade", "positive", "strong",
   "momentum", "breakthrough", "success", "win", "soar", "jump", "climb",
   "increase", "expand", "boom", "thrive", "excel", "outperform"]

/-- Bearish keyword list of `_analyze_with_simple_algorithm`
(`sentiment_service.py` lines 124-129). -/
def bearish_keywords : List String :=
  ["drop", "fall", "decline", "down", "bearish", "sell", "underperform",
   "loss", "earnings miss", "downgrade", "negative", "weak", "crash",
   "plunge", "tumble", "slump", "decrease", "shrink", "struggle", "fail",
   "concern", "risk", "worry", "fear", "uncertainty", "volatility"]

/-- Counting step `sum(1 for keyword in kws if keyword in text_lower)`:
the number of list entries that occur as a substring of the lowered text. -/
def countKeywordHits (kws : List String) (textLower : List Char) : ℕ :=
  (kws.filter (fun k => containsSub k.data textLower)).length

/-- Model of `SentimentService._analyze_with_simple_algorithm`
(`sentiment_service.py` lines 108-140). -/
def analyze_with_simple_algorithm (text : String) : Sentiment :=
  let text_lower := toLowerList text.data
  let bullish_count := countKeywordHits bullish_keywords text_lower
  let bearish_count := countKeywordHits bearish_keywords text_lower
  if bullish_count > bearish_count + 1 then Sentiment.Bullish
  else if bearish_count > bullish_count + 1 then Sentiment.Bearish
  else Sentiment.Neutral

/-! ### Yahoo quote normalization (`stock_api_service.py` lines 117-120) -/

/-- Model of `change = current_price - previous_close`. -/
def yahoo_quote_change (current_price previous_close : ℚ) : ℚ :=
  current_price - previous_close

/-- Model of
`change_percent = (change / previous_close * 100) if previous_close > 0 else Decimal(0)`. -/
def yahoo_quote_change_percent (current_price previous_close : ℚ) : ℚ :=
  if 0 < previous_close then
    yahoo_quote_change current_price previous_close / previous_close * 100
  else 0

/-! ### Freshness decisions (C1) -/

/-- Timestamp as wall-clock seconds plus a timezone-awareness flag:
this models Python `datetime` values, whose `tzinfo` may be set (aware) or
absent (naive); `replace(tzinfo=None)` keeps the wall-clock reading. -/
structure Timestamp where
  sec : ℤ
  aware : Bool
deriving DecidableEq

/-- Model of `datetime.replace(tzinfo=None)`. -/
def stripTz (t : Timestamp) : Timestamp := ⟨t.sec, false⟩

/-- Persisted `Stock` row as the freshness checks read it: nullable decimal
columns `current_price` and `change_in_day`, nullable timestamp `updated_at`. -/
structure StockRow where
  current_price : Option ℚ
  change_in_day : Option ℚ
  updated_at : Option Timestamp
deriving DecidableEq

/-- Python truthiness of a nullable `Decimal` column: `None` and `0` are falsy. -/
def decTruthy : Option ℚ → Bool
  | none => false
  | some v => decide (v ≠ 0)

/-- Constant `StockDetailsView.QUOTE_CACHE_DURATION` (seconds). -/
def QUOTE_CACHE_DURATION : ℤ := 3600

/-- Model of `StockDetailsView._should_update_stock_quote(stock, now)`
(`stock_details_view.py` lines 188-212); `now` there is `datetime.now()`,
a naive wall-clock reading, modelled as seconds. -/
def should_update_stock_quote (stock : StockRow) (now : ℤ) : Bool :=
  match stock.updated_at with
  | none => true
  | some u =>
    let time_since_update : ℤ :=
      if u.aware then now - (stripTz u).sec else now - u.sec
    if time_since_update > QUOTE_CACHE_DURATION then true
    else if !decTruthy stock.current_price then true
    else false

/-- Model of the cache test inside `get_top_movers`
(`stock_api_service.py` lines 241-255): the ticker is served from the
database iff its row exists with a truthy `current_price`, a non-null
`change_in_day`, a non-null `updated_at`, and `now - updated_at <
cache_duration`. -/
def topMoversServesFromCache (row : Option StockRow) (now cacheDur : ℤ) : Bool :=
  match row with
  | none => false
  | some stock =>
    decTruthy stock.current_price && stock.change_in_day.isSome &&
      (match stock.updated_at with
       | some u => decide (now - u.sec < cacheDur)
       | none => false)

/-- Stale decision of the top-movers site: the complement of being served from
cache (a stale ticker is appended to `stocks_to_update`). -/
def top_movers_is_stale (row : Option StockRow) (now cacheDur : ℤ) : Bool :=
  !topMoversServesFromCache row now cacheDur

/-- Freshness rule exactly as the specification states it (spec section 4.1):
`is_stale(last_update, now, window, has_required_field)` is true iff the
timestamp is absent, or `now - last_update > window`, or the required field is
missing. -/
def is_stale_spec (last_update : Option ℤ) (now window : ℤ)
    (has_required_field : Bool) : Bool :=
  match last_update with
  | none => true
  | some u => decide (now - u > window) || !has_required_field

/-- Amended freshness rule for the top-movers site: stale when the row is
missing, its price is not truthy, its `change_in_day` is null, its timestamp is
null, or its age is at least (not strictly greater than) the window. -/
def top_movers_stale_rule (row : Option StockRow) (now cacheDur : ℤ) : Bool :=
  match row with
  | none => true
  | some stock =>
    !decTruthy stock.current_price || !stock.change_in_day.isSome ||
      (match stock.updated_at with
       | none => true
       | some u => decide (cacheDur ≤ now - u.sec))

/-! ### Top movers pipeline (`stock_api_service.py` lines 210-314) -/

/-- Normalized quote dict as produced by the quote providers. -/
structure Quote where
  current_price : ℚ
  change : ℚ
  change_percent : ℚ
deriving DecidableEq

/-- Outcome of one `get_stock_quote` call: the call either raises (`err`,
caught by the `except` clause) or returns a quote dict. -/
inductive FetchOutcome
  | err
  | ok (q : Quote)
deriving DecidableEq

/-- Whether the call returned without raising. -/
def isOk : FetchOutcome → Bool
  | .err => false
  | .ok _ => true

/-- One entry of the `movers` list: `{'ticker', 'change', 'current_price'}`. -/
structure Mover where
  ticker : String
  change : ℚ
  current_price : ℚ
deriving DecidableEq

/-- First pass of `get_top_movers` (lines 238-258): walk the tickers in order,
serving fresh rows from the database (converting the stored percentage to an
absolute dollar change) and collecting the remaining tickers as
`stocks_to_update`. -/
def scanCache (db : String → Option StockRow) (now cacheDur : ℤ) :
    List String → List Mover × List String
  | [] => ([], [])
  | t :: rest =>
    let p := scanCache db now cacheDur rest
    if topMoversServesFromCache (db t) now cacheDur then
      match db t with
      | some stock =>
        let absolute_change :=
          stock.change_in_day.getD 0 / 100 * stock.current_price.getD 0
        (⟨t, absolute_change, stock.current_price.getD 0⟩ :: p.1, p.2)
      | none => (p.1, t :: p.2)
    else (p.1, t :: p.2)

/-- Movers contributed by one iteration of the update loop (lines 267-310):
on a returned quote with positive price, the provider's absolute dollar change
is used; on a raised exception, the stale database row is substituted when it
has a truthy price and a non-null `change_in_day` (the stored percentage is
appended unconverted), and the ticker is omitted otherwise. -/
def fetchTicker (db : String → Option StockRow) (t : String) :
    FetchOutcome → List Mover
  | .ok q => if 0 < q.current_price then [⟨t, q.change, q.current_price⟩] else []
  | .err =>
    match db t with
    | some stock =>
      if decTruthy stock.current_price && stock.change_in_day.isSome then
        [⟨t, stock.change_in_day.getD 0, stock.current_price.getD 0⟩]
      else []
    | none => []

/-- Sequential update loop over `stocks_to_update`: each ticker contributes its
movers and processing continues with the next ticker (the `continue` in the
`except` clause). The `except` path reads `db_stock_dict`, the snapshot taken
before the loop, so `db` is constant throughout. -/
def refreshBatch (db : String → Option StockRow) (oc : String → FetchOutcome) :
    List String → List Mover
  | [] => []
  | t :: rest => fetchTicker db t (oc t) ++ refreshBatch db oc rest

/-- Descending order on absolute change used by
`movers.sort(key=lambda x: abs(x['change']), reverse=True)`. -/
def moversDesc (a b : Mover) : Prop := |b.change| ≤ |a.change|

instance : DecidableRel moversDesc := fun a b =>
  inferInstanceAs (Decidable (|b.change| ≤ |a.change|))

/-- Model of `get_top_movers(limit)` over an explicit ticker list, database
snapshot, per-ticker fetch outcome and current time: cache scan, rate-limited
refresh of the stale tickers, then sort by absolute change descending and
truncate. The cache window is the source's fixed 1 hour (3600 s). -/
def get_top_movers (db : String → Option StockRow) (oc : String → FetchOutcome)
    (now : ℤ) (limit : ℕ) (tickers : List String) : List Mover :=
  let p := scanCache db now 3600 tickers
  let movers := p.1 ++ refreshBatch db oc p.2
  (List.insertionSort moversDesc movers).take limit

/-! ### Sleep schedule of the update loop (C2) -/

/-- The two kinds of pacing delay in the update loop. -/
inductive SleepEvent
  | cooldown
  | spacing
deriving DecidableEq

/-- Durations in seconds: `delay_between_batches = 12` and `time.sleep(0.5)`. -/
def sleepSeconds : SleepEvent → ℚ
  | .cooldown => 12
  | .spacing => 1 / 2

/-- Sleep performed at the end of iteration `i` of the update loop over `n`
stale tickers (lines 293-298): none when the call raised (the `except` path
skips the sleeps); otherwise the 12 s cooldown when `(i + 1) % 5 == 0` and
`i < n - 1`, the 0.5 s spacing when only `i < n - 1`, and none on the last
iteration. -/
def sleepOfIter (n i : ℕ) : FetchOutcome → Option SleepEvent
  | .err => none
  | .ok _ =>
    if (i + 1) % 5 = 0 ∧ i < n - 1 then some SleepEvent.cooldown
    else if i < n - 1 then some SleepEvent.spacing
    else none

/-- Positional sleep schedule of a whole batch: entry `i` is the sleep
performed at the end of iteration `i`. -/
def sleepSchedule (outs : List FetchOutcome) : List (Option SleepEvent) :=
  outs.enum.map fun p => sleepOfIter outs.length p.1 p.2

/-- Batch of 7 update outcomes in which the first quote call raises and the
remaining six succeed: the counterexample batch for the cooldown placement. -/
def c2Batch : List FetchOutcome :=
  [.err, .ok ⟨1, 0, 0⟩, .ok ⟨1, 0, 0⟩, .ok ⟨1, 0, 0⟩, .ok ⟨1, 0, 0⟩,
   .ok ⟨1, 0, 0⟩, .ok ⟨1, 0, 0⟩]

/-! ### Price history normalization (C6) -/

/-- Normalized history point `{'date', 'price', 'volume'}`. Dates are modelled
as integers (`datetime.fromtimestamp(ts).date()` is a monotone function of the
timestamp; the Yahoo path is modelled with the timestamp itself as the date). -/
structure HistPoint where
  date : ℤ
  price : ℚ
  volume : ℤ
deriving DecidableEq

/-- Parsed row of the Alpha Vantage `Time Series (Daily)` payload: the date
key, `'4. close'` and `'5. volume'` (non-null, or parsing raises and the whole
history call returns empty). -/
structure AvRow where
  date : ℤ
  close : ℚ
  volume : ℤ
deriving DecidableEq

/-- Slot `i` of the Yahoo chart payload: `timestamp[i]`, `close[i]` and
`volume[i]`, the latter two nullable. -/
structure YahooRow where
  timestamp : ℤ
  close : Option ℚ
  volume : Option ℤ
deriving DecidableEq

/-- Ascending-date order used by `history.sort(key=lambda x: x['date'])`. -/
def histDateLe (a b : HistPoint) : Prop := a.date ≤ b.date

instance : DecidableRel histDateLe := fun a b =>
  inferInstanceAs (Decidable (a.date ≤ b.date))

/-- Model of `_get_alpha_vantage_history` (lines 163-179): keep rows with
`date >= start_date`, build points, then sort ascending by date. -/
def alpha_vantage_history (rows : List AvRow) (start_date : ℤ) : List HistPoint :=
  List.insertionSort histDateLe
    ((rows.filter fun r => decide (start_date ≤ r.date)).map
      fun r => ⟨r.date, r.close, r.volume⟩)

/-- Volume normalization `int(volumes[i]) if volumes[i] else 0` (both `None`
and `0` are falsy). -/
def yahooVol : Option ℤ → ℤ
  | some v => if v = 0 then 0 else v
  | none => 0

/-- Model of `_get_yahoo_finance_history` (lines 192-208): keep slots whose
close is not `None`, in payload order; no sort is performed. -/
def yahoo_finance_history (rows : List YahooRow) : List HistPoint :=
  rows.filterMap fun r =>
    match r.close with
    | some c => some ⟨r.timestamp, c, yahooVol r.volume⟩
    | none => none

/-! ### News fetch, dedup and truncation (C7, `news_service.py` lines 50-64) -/

/-- Fetched article as the dedup loop sees it: its title and its (possibly
unset) sentiment label. -/
structure Article where
  title : String
  sentiment : Option String
deriving DecidableEq

/-- Model of the optional sentiment filter (lines 51-52), applied only when the
`sentiment` argument is truthy (`none` models both absence and the empty
string). -/
def filterSentiment (want : Option String) (news : List Article) : List Article :=
  match want with
  | none => news
  | some s => news.filter fun n => decide (n.sentiment = some s)

/-- Model of the dedup loop (lines 55-62): `seen` holds the titles already
kept, `count` the number of articles kept so far; the loop breaks as soon as
`count` reaches `limit`. -/
def collectUnique (limit : ℕ) : List Article → List String → ℕ → List Article
  | [], _, _ => []
  | a :: rest, seen, count =>
    if a.title ∈ seen then collectUnique limit rest seen count
    else
      a :: (if limit ≤ count + 1 then []
            else collectUnique limit rest (a.title :: seen) (count + 1))

/-- Model of `get_news_for_ticker` after the provider calls: sentiment filter,
dedup loop, final `[:limit]` truncation. -/
def get_news_for_ticker (news : List Article) (limit : ℕ)
    (sentiment : Option String) : List Article :=
  (collectUnique limit (filterSentiment sentiment news) [] 0).take limit

/-- Deduplication by exact (case-sensitive) title with first occurrence
winning, with no truncation: the reference the spec describes. -/
def dedupByTitle : List Article → List String → List Article
  | [], _ => []
  | a :: rest, seen =>
    if a.title ∈ seen then dedupByTitle rest seen
    else a :: dedupByTitle rest (a.title :: seen)

/-! ### Buzz score (C8) -/

/-- Python `round(x, 6)`: rounding to 6 decimal places. Ties are modelled
half-up (`round` on `ℚ`); Python uses half-even, and no claim depends on the
behaviour at an exact tie. -/
def round6 (x : ℚ) : ℚ := (round (x * 1000000) : ℤ) / 1000000

/-- Model of the per-ticker score of `NewsBuzzView.get`
(`news_buzz_view.py` lines 79-82 and 94): when the maximal count is positive,
`round(min(news_count / max(max_news_count, 10.0), 0.999999), 6)`, else 0. -/
def buzz_score (news_count max_news_count : ℚ) : ℚ :=
  if 0 < max_news_count then
    round6 (min (news_count / max max_news_count 10) (999999 / 1000000))
  else round6 0

/-- Model of the score of `NewsService.get_news_buzz`
(`news_service.py` line 235): `round(min(len(news) / 10.0, 0.999999), 6)`. -/
def news_buzz_score (newsLen : ℕ) : ℚ :=
  round6 (min ((newsLen : ℚ) / 10) (999999 / 1000000))

/-- Buzz-score formula exactly as the specification states it (spec section
4.4): `min(raw_count / max(normalizer, 10.0), 0.999999)` rounded to 6 decimal
places. -/
def buzz_formula (raw_count normalizer : ℚ) : ℚ :=
  round6 (min (raw_count / max normalizer 10) (999999 / 1000000))

/-- Ranked buzz entry `{'ticker', 'score'}`. -/
structure BuzzEntry where
  ticker : String
  score : ℚ
deriving DecidableEq

/-- Descending score order used by
`buzz_scores.sort(key=lambda x: x['score'], reverse=True)`. -/
def buzzDesc (a b : BuzzEntry) : Prop := b.score ≤ a.score

instance : DecidableRel buzzDesc := fun a b =>
  inferInstanceAs (Decidable (b.score ≤ a.score))

/-- Final ranking of both buzz sites: sort descending by score, truncate. -/
def rankBuzz (l : List BuzzEntry) (limit : ℕ) : List BuzzEntry :=
  (List.insertionSort buzzDesc l).take limit

/-! ### Sentiment movers (C9, `sentiment_movers_view.py` lines 40-84) -/

/-- Python `int()` applied to a number: truncation toward zero. -/
def pyInt (q : ℚ) : ℤ := if 0 ≤ q then ⌊q⌋ else ⌈q⌉

/-- Model of `sentiment_score = int(((bullish - bearish) / total) * 100)` for
one window, from its bullish/bearish/neutral article counts. -/
def sentiment_score (bullish bearish neutral : ℕ) : ℤ :=
  pyInt (((bullish : ℚ) - (bearish : ℚ)) /
    ((bullish : ℚ) + (bearish : ℚ) + (neutral : ℚ)) * 100)

/-- Model of the `change` computation (lines 70-74): current score minus
previous-window score when the previous window has articles, else 0. -/
def sentiment_change (b r n pb pr pn : ℕ) : ℤ :=
  if 0 < pb + pr + pn then sentiment_score b r n - sentiment_score pb pr pn
  else 0

/-! ### Helper lemmas -/

/-- Positional access into the sleep schedule. -/
theorem sleepSchedule_getElem (outs : List FetchOutcome) (i : ℕ) :
    (sleepSchedule outs)[i]? = (outs[i]?).map (sleepOfIter outs.length i) := by
  simp [sleepSchedule, List.getElem?_map, List.getElem?_enum, Option.map_map]
  rfl

/-- The dedup loop with its early break computes a prefix of the full
deduplication. -/
theorem collectUnique_eq_take (limit : ℕ) (l : List Article) :
    ∀ (seen : List String) (count : ℕ), count < limit →
      collectUnique limit l seen count = (dedupByTitle l seen).take (limit - count) := by
  induction l with
  | nil => intro seen count _; simp [collectUnique, dedupByTitle]
  | cons a rest ih =>
    intro seen count h
    by_cases hmem : a.title ∈ seen
    · simp [collectUnique, dedupByTitle, hmem, ih seen count h]
    · by_cases hfull : limit ≤ count + 1
      · have h1 : limit - count = 1 := by omega
        simp [collectUnique, dedupByTitle, hmem, hfull, h1]
      · have h2 : limit - count = (limit - (count + 1)) + 1 := by omega
        simp [collectUnique, dedupByTitle, hmem, hfull,
          ih (a.title :: seen) (count + 1) (by omega), h2]

/-- Titles produced by the deduplication never come from the `seen` set. -/
theorem mem_dedupByTitle (l : List Article) :
    ∀ (seen : List String) (x : Article), x ∈ dedupByTitle l seen → x.title ∉ seen := by
  induction l with
  | nil => intro seen x hx; simp [dedupByTitle] at hx
  | cons a rest ih =>
    intro seen x hx
    by_cases hmem : a.title ∈ seen
    · exact ih seen x (by simpa [dedupByTitle, hmem] using hx)
    · rw [dedupByTitle, if_neg hmem] at hx
      rcases List.mem_cons.mp hx with rfl | hx
      · exact hmem
      · intro hs
        exact ih (a.title :: seen) x hx (List.mem_cons_of_mem _ hs)

/-- The deduplicated list has pairwise distinct titles. -/
theorem dedupByTitle_pairwise (l : List Article) :
    ∀ seen : List String,
      List.Pairwise (fun a b : Article => a.title ≠ b.title) (dedupByTitle l seen) := by
  induction l with
  | nil => intro seen; simp [dedupByTitle]
  | cons a rest ih =>
    intro seen
    by_cases hmem : a.title ∈ seen
    · simpa [dedupByTitle, hmem] using ih seen
    · rw [dedupByTitle, if_neg hmem]
      refine List.Pairwise.cons ?_ (ih (a.title :: seen))
      intro b hb
      have hbm := mem_dedupByTitle rest (a.title :: seen) b hb
      intro hab
      exact hbm (by simp [← hab])

/-- The Yahoo history is the order-preserving restriction of the payload to
the slots with a non-null close. -/
theorem yahoo_finance_history_eq (rows : List YahooRow) :
    yahoo_finance_history rows =
      (rows.filter fun r => r.close.isSome).map
        (fun r => ⟨r.timestamp, r.close.getD 0, yahooVol r.volume⟩) := by
  induction rows with
  | nil => rfl
  | cons r rest ih =>
    cases h : r.close <;>
      simp [yahoo_finance_history, List.filterMap_cons, List.filter_cons, h] <;>
      simpa [yahoo_finance_history] using ih

/-- Rounding to 6 decimal places is monotone. -/
theorem round6_mono {x y : ℚ} (h : x ≤ y) : round6 x ≤ round6 y := by
  unfold round6
  have h2 : round (x * 1000000) ≤ round (y * 1000000) := by
    rw [round_eq, round_eq]
    exact Int.floor_le_floor (by linarith)
  exact (div_le_div_iff_of_pos_right (by norm_num)).mpr (Int.cast_le.mpr h2)

/-- Rounding fixes 0. -/
theorem round6_zero : round6 0 = 0 := by
  simp [round6]

/-- Rounding fixes the cap 0.999999. -/
theorem round6_cap : round6 (999999 / 1000000) = 999999 / 1000000 := by
  have h : (999999 / 1000000 : ℚ) * 1000000 = ((999999 : ℤ) : ℚ) := by norm_num
  rw [round6, h, round_intCast]
  norm_num

/-- The buzz formula is monotone in the raw count. -/
theorem buzz_formula_mono (m : ℚ) {a b : ℚ} (h : a ≤ b) :
    buzz_formula a m ≤ buzz_formula b m := by
  have hM : (0 : ℚ) < max m 10 := lt_of_lt_of_le (by norm_num) (le_max_right m 10)
  exact round6_mono (min_le_min ((div_le_div_iff_of_pos_right hM).mpr h) le_rfl)

/-- The buzz formula stays inside [0, 0.999999] for nonnegative counts. -/
theorem buzz_formula_bounds (c m : ℚ) (hc : 0 ≤ c) :
    0 ≤ buzz_formula c m ∧ buzz_formula c m ≤ 999999 / 1000000 := by
  have hM : (0 : ℚ) < max m 10 := lt_of_lt_of_le (by norm_num) (le_max_right m 10)
  constructor
  · have h0 : (0 : ℚ) ≤ min (c / max m 10) (999999 / 1000000) :=
      le_min (div_nonneg hc hM.le) (by norm_num)
    have hr := round6_mono h0
    rwa [round6_zero] at hr
  · have hr := round6_mono (min_le_right (c / max m 10) (999999 / 1000000 : ℚ))
    rwa [round6_cap] at hr

/-- Truncation toward zero maps an interval with integer endpoints into it. -/
theorem pyInt_bounds {q : ℚ} (lo hi : ℤ) (hlo : (lo : ℚ) ≤ q) (hhi : q ≤ (hi : ℚ)) :
    lo ≤ pyInt q ∧ pyInt q ≤ hi := by
  unfold pyInt
  split_ifs with h
  · exact ⟨Int.le_floor.mpr hlo, Int.cast_le.mp ((Int.floor_le q).trans hhi)⟩
  · exact ⟨Int.cast_le.mp (hlo.trans (Int.le_ceil q)), Int.ceil_le.mpr hhi⟩

/-! ### Claim theorems -/

/-- C1, counterexample: a record with a present price, a present daily change
and a last update exactly one hour old (age = window, not exceeding it) is
fresh under the stated rule and under the stock-details site, but the
top-movers cache check classifies it as stale; hence the two sites do not both
implement the stated rule. -/
theorem C1_freshness_counterexample :
    should_update_stock_quote ⟨some 100, some 1, some ⟨0, true⟩⟩ 3600 = false ∧
    top_movers_is_stale (some ⟨some 100, some 1, some ⟨0, true⟩⟩) 3600 3600 = true ∧
    is_stale_spec (some 0) 3600 3600 true = false := by
  refine ⟨by decide, by decide, by decide⟩

/-- C1, amended: the stock-details site implements the stated freshness rule
exactly (stale iff the timestamp is absent, the age strictly exceeds the
1-hour window after timezone normalization, or the price is missing), while
the top-movers site is stale iff the row is missing, its price is missing, its
daily change is null, its timestamp is absent, or its age is at least (rather
than strictly greater than) the window; a null last update yields stale at
both sites for every now and window. -/
theorem C1_freshness_amended :
    (∀ (stock : StockRow) (now : ℤ),
      should_update_stock_quote stock now =
        is_stale_spec (stock.updated_at.map Timestamp.sec) now QUOTE_CACHE_DURATION
          (decTruthy stock.current_price)) ∧
    (∀ (row : Option StockRow) (now w : ℤ),
      top_movers_is_stale row now w = top_movers_stale_rule row now w) ∧
    (∀ (p c : Option ℚ) (now : ℤ),
      should_update_stock_quote ⟨p, c, none⟩ now = true) ∧
    (∀ (p c : Option ℚ) (now w : ℤ),
      top_movers_is_stale (some ⟨p, c, none⟩) now w = true) ∧
    (∀ now w : ℤ, top_movers_is_stale none now w = true) := by
  refine ⟨?_, ?_, ?_, ?_, ?_⟩
  · intro stock now
    rcases stock with ⟨p, c, u⟩
    cases u with
    | none => rfl
    | some t =>
      rcases t with ⟨s, aware⟩
      cases aware <;>
        simp only [should_update_stock_quote, is_stale_spec, stripTz,
          Option.map_some'] <;>
        split_ifs with h1 h2 <;> simp_all
  · intro row now w
    cases row with
    | none => rfl
    | some stock =>
      rcases stock with ⟨p, c, u⟩
      cases u with
      | none =>
        simp [top_movers_is_stale, topMoversServesFromCache, top_movers_stale_rule]
      | some t =>
        simp only [top_movers_is_stale, topMoversServesFromCache,
          top_movers_stale_rule, Bool.not_and]
        by_cases h : now - t.sec < w
        · simp [h, not_le.mpr h]
        · simp [h, le_of_not_lt h]
  · intro p c now
    rfl
  · intro p c now w
    simp [top_movers_is_stale, topMoversServesFromCache]
  · intro now w
    rfl

/-- C2, counterexample: in a 7-ticker batch whose first call raises and whose
other calls succeed, the 12-second cooldown fires at iteration 4, which
completes only the 4th successful call, and does not fire after the 5th
successful call (iteration 5) although more tickers remain; the cooldown is
therefore positional, not keyed to successful-call count. -/
theorem C2_cooldown_counterexample :
    ((c2Batch.take 6).countP isOk = 5 ∧ 5 < c2Batch.length - 1 ∧
      (sleepSchedule c2Batch)[5]? = some (some SleepEvent.spacing)) ∧
    ((c2Batch.take 5).countP isOk = 4 ∧
      (sleepSchedule c2Batch)[4]? = some (some SleepEvent.cooldown)) := by
  decide

/-- C2, amended: the sleep at iteration `i` is determined positionally — the
12-second cooldown occurs exactly at the non-raising iterations with
`(i + 1) % 5 == 0` and more tickers remaining, the 0.5-second spacing at the
other non-raising non-final iterations, and nothing at raising iterations; for
a batch of 12 tickers in which every call succeeds this places exactly 2
cooldowns, after items 5 and 10. -/
theorem C2_sleep_schedule_amended :
    (∀ (outs : List FetchOutcome) (i : ℕ),
      (sleepSchedule outs)[i]? = (outs[i]?).map (sleepOfIter outs.length i)) ∧
    (∀ (outs : List FetchOutcome) (i : ℕ) (o : FetchOutcome), outs[i]? = some o →
      ((sleepSchedule outs)[i]? = some (some SleepEvent.cooldown) ↔
        isOk o = true ∧ (i + 1) % 5 = 0 ∧ i < outs.length - 1)) ∧
    sleepSchedule (List.replicate 12 (FetchOutcome.ok ⟨1, 0, 0⟩)) =
      [some SleepEvent.spacing, some SleepEvent.spacing, some SleepEvent.spacing,
       some SleepEvent.spacing, some SleepEvent.cooldown, some SleepEvent.spacing,
       some SleepEvent.spacing, some SleepEvent.spacing, some SleepEvent.spacing,
       some SleepEvent.cooldown, some SleepEvent.spacing, none] := by
  refine ⟨sleepSchedule_getElem, ?_, by decide⟩
  intro outs i o h
  rw [sleepSchedule_getElem, h]
  cases o with
  | err => simp [sleepOfIter, isOk]
  | ok q =>
    simp only [sleepOfIter, isOk, Option.map_some', true_and]
    split_ifs with h1 h2 <;> simp_all

/-- C2, witness: the amended characterization applied to iteration 4 of the
all-success batch of 12. -/
theorem C2_sleep_schedule_amended_witness :
    (List.replicate 12 (FetchOutcome.ok ⟨1, 0, 0⟩))[4]? =
      some (FetchOutcome.ok ⟨1, 0, 0⟩) ∧
    ((sleepSchedule (List.replicate 12 (FetchOutcome.ok ⟨1, 0, 0⟩)))[4]? =
        some (some SleepEvent.cooldown) ↔
      isOk (FetchOutcome.ok ⟨1, 0, 0⟩) = true ∧ (4 + 1) % 5 = 0 ∧
        4 < (List.replicate 12 (FetchOutcome.ok ⟨1, 0, 0⟩)).length - 1) :=
  ⟨by decide, C2_sleep_schedule_amended.2.1 _ 4 _ (by decide)⟩

/-- C3: a per-ticker fetch failure never aborts the batch — the failing ticker
is served from its persisted row when that row has a (truthy) current price
and a non-null daily change, is omitted when the row is unusable or absent,
and in every case the remaining tickers are processed unchanged. -/
theorem C3_per_ticker_failure_isolation :
    (∀ (db : String → Option StockRow) (oc : String → FetchOutcome)
        (t : String) (rest : List String) (stock : StockRow),
      db t = some stock → oc t = FetchOutcome.err →
      (decTruthy stock.current_price && stock.change_in_day.isSome) = true →
      refreshBatch db oc (t :: rest) =
        ⟨t, stock.change_in_day.getD 0, stock.current_price.getD 0⟩ ::
          refreshBatch db oc rest) ∧
    (∀ (db : String → Option StockRow) (oc : String → FetchOutcome)
        (t : String) (rest : List String) (stock : StockRow),
      db t = some stock → oc t = FetchOutcome.err →
      (decTruthy stock.current_price && stock.change_in_day.isSome) = false →
      refreshBatch db oc (t :: rest) = refreshBatch db oc rest) ∧
    (∀ (db : String → Option StockRow) (oc : String → FetchOutcome)
        (t : String) (rest : List String),
      db t = none → oc t = FetchOutcome.err →
      refreshBatch db oc (t :: rest) = refreshBatch db oc rest) := by
  refine ⟨?_, ?_, ?_⟩
  · intro db oc t rest stock hdb hoc hrow
    simp [refreshBatch, fetchTicker, hdb, hoc, hrow]
  · intro db oc t rest stock hdb hoc hrow
    simp [refreshBatch, fetchTicker, hdb, hoc, hrow]
  · intro db oc t rest hdb hoc
    simp [refreshBatch, fetchTicker, hdb, hoc]

/-- C3, witness: the fallback equation applied to a one-ticker batch whose
call fails and whose database row is usable. -/
theorem C3_per_ticker_failure_isolation_witness :
    ((fun s => if s = "AAPL" then
        some (⟨some 20, some 40, none⟩ : StockRow) else none) "AAPL" =
      some (⟨some 20, some 40, none⟩ : StockRow)) ∧
    refreshBatch
        (fun s => if s = "AAPL" then some ⟨some 20, some 40, none⟩ else none)
        (fun _ => FetchOutcome.err) ["AAPL"] =
      ⟨"AAPL", (40 : ℚ), 20⟩ ::
        refreshBatch
          (fun s => if s = "AAPL" then some ⟨some 20, some 40, none⟩ else none)
          (fun _ => FetchOutcome.err) [] :=
  ⟨by decide,
   C3_per_ticker_failure_isolation.1
     (fun s => if s = "AAPL" then some ⟨some 20, some 40, none⟩ else none)
     (fun _ => FetchOutcome.err) "AAPL" [] ⟨some 20, some 40, none⟩
     (by decide) rfl (by decide)⟩

/-- C4: the keyword fallback lowercases the text, counts how many keywords of
the fixed bullish and bearish sets occur in it, and returns Bullish iff
bullish count exceeds bearish count + 1, Bearish iff bearish count exceeds
bullish count + 1, and Neutral otherwise; on the sample headline the counts
are 3 and 0 and the result is Bullish. -/
theorem C4_keyword_fallback_classifier :
    (∀ text : String,
      analyze_with_simple_algorithm text =
        (if countKeywordHits bullish_keywords (toLowerList text.data) >
            countKeywordHits bearish_keywords (toLowerList text.data) + 1 then
          Sentiment.Bullish
         else if countKeywordHits bearish_keywords (toLowerList text.data) >
            countKeywordHits bullish_keywords (toLowerList text.data) + 1 then
          Sentiment.Bearish
         else Sentiment.Neutral)) ∧
    countKeywordHits bullish_keywords
      (toLowerList ("Stock surges on strong earnings beat").data) = 3 ∧
    countKeywordHits bearish_keywords
      (toLowerList ("Stock surges on strong earnings beat").data) = 0 ∧
    analyze_with_simple_algorithm "Stock surges on strong earnings beat" =
      Sentiment.Bullish := by
  refine ⟨fun text => rfl, by decide, by decide, by decide⟩

/-- C5: the Yahoo quote normalization computes change = p − q, computes
change_percent = (p − q) / q × 100 only under the guard q > 0 and returns 0
for q ≤ 0, and on p = 150, q = 148 yields change = 2 and change_percent within
0.01 of 1.35. -/
theorem C5_quote_normalization :
    (∀ p q : ℚ, yahoo_quote_change p q = p - q) ∧
    (∀ p q : ℚ, 0 < q → yahoo_quote_change_percent p q = (p - q) / q * 100) ∧
    (∀ p q : ℚ, q ≤ 0 → yahoo_quote_change_percent p q = 0) ∧
    yahoo_quote_change 150 148 = 2 ∧
    |yahoo_quote_change_percent 150 148 - 135 / 100| < 1 / 100 := by
  refine ⟨fun p q => rfl, ?_, ?_, by norm_num [yahoo_quote_change], ?_⟩
  · intro p q h
    simp [yahoo_quote_change_percent, yahoo_quote_change, h]
  · intro p q h
    simp [yahoo_quote_change_percent, not_lt.mpr h]
  · rw [yahoo_quote_change_percent, if_pos (by norm_num)]
    rw [yahoo_quote_change, abs_of_nonneg (by norm_num)]
    norm_num

/-- C5, witness: the two guarded branches applied at q = 148 and q = −1. -/
theorem C5_quote_normalization_witness :
    ((0 : ℚ) < 148 ∧
      yahoo_quote_change_percent 150 148 = (150 - 148) / 148 * 100) ∧
    ((-1 : ℚ) ≤ 0 ∧ yahoo_quote_change_percent 150 (-1) = 0) :=
  ⟨⟨by norm_num, C5_quote_normalization.2.1 150 148 (by norm_num)⟩,
   ⟨by norm_num, C5_quote_normalization.2.2.1 150 (-1) (by norm_num)⟩⟩

/-- C6, counterexample: a Yahoo payload whose timestamps arrive out of order
(two days apart, both with non-null closes) produces a history list that is
not sorted ascending by date, refuting the claim for the Yahoo provider. -/
theorem C6_yahoo_unsorted_counterexample :
    ¬ List.Sorted histDateLe
        (yahoo_finance_history
          [⟨172800, some 10, some 1⟩, ⟨0, some 11, some 1⟩]) := by
  decide

/-- C6, amended: the Alpha Vantage history is sorted ascending by date for
every payload; the Yahoo history filters out the null-close slots but keeps
the payload order unchanged (so it contains no null-close entry, yet is sorted
only when the payload itself is sorted by timestamp). -/
theorem C6_history_normalization_amended :
    (∀ (rows : List AvRow) (start_date : ℤ),
      List.Sorted histDateLe (alpha_vantage_history rows start_date)) ∧
    (∀ rows : List YahooRow,
      yahoo_finance_history rows =
        (rows.filter fun r => r.close.isSome).map
          (fun r => ⟨r.timestamp, r.close.getD 0, yahooVol r.volume⟩)) ∧
    (∀ rows : List YahooRow,
      List.Pairwise (fun a b : YahooRow => a.timestamp ≤ b.timestamp) rows →
      List.Sorted histDateLe (yahoo_finance_history rows)) := by
  refine ⟨?_, yahoo_finance_history_eq, ?_⟩
  · intro rows start_date
    haveI : IsTotal HistPoint histDateLe := ⟨fun a b => le_total a.date b.date⟩
    haveI : IsTrans HistPoint histDateLe := ⟨fun _ _ _ hab hbc => le_trans hab hbc⟩
    exact List.sorted_insertionSort histDateLe _
  · intro rows h
    rw [yahoo_finance_history_eq, List.Sorted, List.pairwise_map]
    exact (h.filter _).imp (fun hab => hab)

/-- C6, witness: the order-preservation clause applied to a two-slot payload
whose timestamps are already ascending. -/
theorem C6_history_normalization_amended_witness :
    List.Pairwise (fun a b : YahooRow => a.timestamp ≤ b.timestamp)
      [⟨0, some 1, none⟩, ⟨5, some 2, some 3⟩] ∧
    List.Sorted histDateLe
      (yahoo_finance_history [⟨0, some 1, none⟩, ⟨5, some 2, some 3⟩]) :=
  ⟨by decide, C6_history_normalization_amended.2.2 _ (by decide)⟩

/-- C7: after the optional sentiment filter, the dedup loop with its early
break followed by the final truncation equals deduplication by exact title
(first occurrence wins) followed by truncation to the limit; the output has
pairwise distinct titles, and a fetched pair of identically titled articles
yields exactly the first of them whenever at least one article is requested. -/
theorem C7_news_dedup_then_truncate :
    (∀ (news : List Article) (limit : ℕ) (sentiment : Option String),
      get_news_for_ticker news limit sentiment =
        (dedupByTitle (filterSentiment sentiment news) []).take limit) ∧
    (∀ (news : List Article) (limit : ℕ) (sentiment : Option String),
      List.Pairwise (fun a b : Article => a.title ≠ b.title)
        (get_news_for_ticker news limit sentiment)) ∧
    (∀ (a b : Article) (limit : ℕ), a.title = b.title → 1 ≤ limit →
      get_news_for_ticker [a, b] limit none = [a]) := by
  have key : ∀ (news : List Article) (limit : ℕ) (sentiment : Option String),
      get_news_for_ticker news limit sentiment =
        (dedupByTitle (filterSentiment sentiment news) []).take limit := by
    intro news limit sentiment
    rcases Nat.eq_zero_or_pos limit with h | h
    · simp [get_news_for_ticker, h]
    · rw [get_news_for_ticker, collectUnique_eq_take limit _ [] 0 h, Nat.sub_zero,
        List.take_take, min_self]
  refine ⟨key, ?_, ?_⟩
  · intro news limit sentiment
    rw [key]
    exact (dedupByTitle_pairwise _ []).sublist (List.take_sublist _ _)
  · intro a b limit hab hl
    rw [key]
    have hd : dedupByTitle (filterSentiment none [a, b]) [] = [a] := by
      simp [filterSentiment, dedupByTitle, hab.symm]
    rw [hd]
    exact List.take_of_length_le (by simpa using hl)

/-- C7, witness: the two-identical-articles clause applied to two concrete
articles sharing a title, with the default limit of 10. -/
theorem C7_news_dedup_then_truncate_witness :
    (Article.mk "Apple hits record" none).title =
      (Article.mk "Apple hits record" (some "Bullish")).title ∧
    1 ≤ 10 ∧
    get_news_for_ticker
      [⟨"Apple hits record", none⟩, ⟨"Apple hits record", some "Bullish"⟩]
      10 none = [⟨"Apple hits record", none⟩] :=
  ⟨rfl, by decide,
   C7_news_dedup_then_truncate.2.2 ⟨"Apple hits record", none⟩
     ⟨"Apple hits record", some "Bullish"⟩ 10 rfl (by decide)⟩

/-- C8: both buzz sites instantiate the formula
min(raw_count / max(normalizer, 10), 0.999999) rounded to 6 decimal places
(the view for every positive normalizer, with the degenerate all-zero case
agreeing as well, and the service with the fixed normalizer 10); the formula
is monotone non-decreasing in the raw count, always lies in [0, 0.999999] for
nonnegative counts, and the ranking is sorted descending by score. -/
theorem C8_buzz_score_properties :
    (∀ c m : ℚ, 0 < m → buzz_score c m = buzz_formula c m) ∧
    (∀ m : ℚ, m ≤ 0 → buzz_score 0 m = buzz_formula 0 m) ∧
    (∀ n : ℕ, news_buzz_score n = buzz_formula (n : ℚ) 10) ∧
    (∀ (m : ℚ) {a b : ℚ}, a ≤ b → buzz_formula a m ≤ buzz_formula b m) ∧
    (∀ c m : ℚ, 0 ≤ c → 0 ≤ buzz_formula c m ∧ buzz_formula c m ≤ 999999 / 1000000) ∧
    (∀ (l : List BuzzEntry) (limit : ℕ), List.Sorted buzzDesc (rankBuzz l limit)) := by
  refine ⟨?_, ?_, ?_, buzz_formula_mono, buzz_formula_bounds, ?_⟩
  · intro c m hm
    rw [buzz_score, if_pos hm, buzz_formula]
  · intro m hm
    have hmax : max m 10 = 10 := max_eq_right (le_trans hm (by norm_num))
    rw [buzz_score, if_neg (not_lt.mpr hm), buzz_formula, hmax]
    norm_num
  · intro n
    rw [news_buzz_score, buzz_formula, max_self]
  · intro l limit
    haveI : IsTotal BuzzEntry buzzDesc := ⟨fun a b => le_total b.score a.score⟩
    haveI : IsTrans BuzzEntry buzzDesc := ⟨fun _ _ _ hab hbc => le_trans hbc hab⟩
    exact (List.sorted_insertionSort buzzDesc l).sublist (List.take_sublist _ _)

/-- C8, witness: the guarded clauses applied at concrete counts and
normalizers. -/
theorem C8_buzz_score_properties_witness :
    ((0 : ℚ) < 1 ∧ buzz_score 1 1 = buzz_formula 1 1) ∧
    ((0 : ℚ) ≤ 0 ∧ buzz_score 0 0 = buzz_formula 0 0) ∧
    ((1 : ℚ) ≤ 2 ∧ buzz_formula 1 5 ≤ buzz_formula 2 5) ∧
    ((0 : ℚ) ≤ 3 ∧ 0 ≤ buzz_formula 3 7 ∧ buzz_formula 3 7 ≤ 999999 / 1000000) :=
  ⟨⟨by norm_num, C8_buzz_score_properties.1 1 1 (by norm_num)⟩,
   ⟨le_refl 0, C8_buzz_score_properties.2.1 0 (le_refl 0)⟩,
   ⟨by norm_num, C8_buzz_score_properties.2.2.2.1 5 (by norm_num)⟩,
   ⟨by norm_num, C8_buzz_score_properties.2.2.2.2.1 3 7 (by norm_num)⟩⟩

/-- C9: for a window with positive total, the sentiment score is the
zero-truncated integer of ((bullish − bearish) / total) × 100 and lies in
[−100, 100]; the change is the current score minus the previous score when the
previous window is non-empty and 0 otherwise; the 6/2/2 versus 2/6/2 example
gives scores 40 and −40 and change 80. -/
theorem C9_sentiment_movers :
    (∀ b r n : ℕ, 0 < b + r + n →
      sentiment_score b r n =
        pyInt (((b : ℚ) - (r : ℚ)) / ((b : ℚ) + (r : ℚ) + (n : ℚ)) * 100) ∧
      -100 ≤ sentiment_score b r n ∧ sentiment_score b r n ≤ 100) ∧
    (∀ b r n pb pr pn : ℕ, 0 < pb + pr + pn →
      sentiment_change b r n pb pr pn =
        sentiment_score b r n - sentiment_score pb pr pn) ∧
    (∀ b r n pb pr pn : ℕ, pb + pr + pn = 0 →
      sentiment_change b r n pb pr pn = 0) ∧
    sentiment_score 6 2 2 = 40 ∧ sentiment_score 2 6 2 = -40 ∧
    sentiment_change 6 2 2 2 6 2 = 80 := by
  have hcur : sentiment_score 6 2 2 = 40 := by
    rw [sentiment_score, pyInt, if_pos (by norm_num)]
    rw [Int.floor_eq_iff]
    constructor <;> push_cast <;> norm_num
  have hprev : sentiment_score 2 6 2 = -40 := by
    rw [sentiment_score, pyInt, if_neg (by norm_num)]
    rw [Int.ceil_eq_iff]
    constructor <;> push_cast <;> norm_num
  refine ⟨?_, ?_, ?_, hcur, hprev, ?_⟩
  · intro b r n h
    refine ⟨rfl, ?_⟩
    have hT : (0 : ℚ) < (b : ℚ) + (r : ℚ) + (n : ℚ) := by
      have hc : (0 : ℚ) < ((b + r + n : ℕ) : ℚ) := by exact_mod_cast h
      push_cast at hc
      linarith
    have hb : (0 : ℚ) ≤ (b : ℚ) := by positivity
    have hr : (0 : ℚ) ≤ (r : ℚ) := by positivity
    have hn : (0 : ℚ) ≤ (n : ℚ) := by positivity
    have hx1 : ((b : ℚ) - (r : ℚ)) / ((b : ℚ) + (r : ℚ) + (n : ℚ)) ≤ 1 := by
      rw [div_le_one hT]
      linarith
    have hx2 : (-1 : ℚ) ≤ ((b : ℚ) - (r : ℚ)) / ((b : ℚ) + (r : ℚ) + (n : ℚ)) := by
      rw [le_div_iff₀ hT]
      linarith
    exact pyInt_bounds (-100) 100 (by push_cast; linarith) (by push_cast; linarith)
  · intro b r n pb pr pn h
    rw [sentiment_change, if_pos h]
  · intro b r n pb pr pn h
    rw [sentiment_change, if_neg (by omega)]
  · rw [sentiment_change, if_pos (by norm_num), hcur, hprev]
    norm_num

/-- C9, witness: the positive-total clauses applied at the 6/2/2 and 2/6/2
windows. -/
theorem C9_sentiment_movers_witness :
    (0 < 6 + 2 + 2 ∧
      (sentiment_score 6 2 2 =
        pyInt (((6 : ℚ) - (2 : ℚ)) / ((6 : ℚ) + (2 : ℚ) + (2 : ℚ)) * 100) ∧
      -100 ≤ sentiment_score 6 2 2 ∧ sentiment_score 6 2 2 ≤ 100)) ∧
    (0 < 2 + 6 + 2 ∧
      sentiment_change 6 2 2 2 6 2 =
        sentiment_score 6 2 2 - sentiment_score 2 6 2) :=
  ⟨⟨by decide, by
      have h := C9_sentiment_movers.1 6 2 2 (by decide)
      exact ⟨by exact_mod_cast h.1, h.2⟩⟩,
   ⟨by decide, C9_sentiment_movers.2.1 6 2 2 2 6 2 (by decide)⟩⟩

/-- C10: in get_top_movers the three ways a ticker reaches the output carry
three different change representations — a fresh-cache ticker carries
(change_in_day / 100) × current_price in dollars, a freshly fetched ticker
carries the provider's absolute dollar change, and a stale-fallback ticker
carries the stored change_in_day percentage unconverted — and the final list
is ranked by absolute change descending, so a concrete run mixes a percentage
(40) and a dollar amount (5) in one ranked output. -/
theorem C10_change_unit_mix :
    (∀ (db : String → Option StockRow) (now w : ℤ) (t : String)
        (rest : List String) (stock : StockRow), db t = some stock →
      topMoversServesFromCache (db t) now w = true →
      scanCache db now w (t :: rest) =
        (⟨t, stock.change_in_day.getD 0 / 100 * stock.current_price.getD 0,
            stock.current_price.getD 0⟩ :: (scanCache db now w rest).1,
         (scanCache db now w rest).2)) ∧
    (∀ (db : String → Option StockRow) (t : String) (q : Quote),
      0 < q.current_price →
      fetchTicker db t (FetchOutcome.ok q) = [⟨t, q.change, q.current_price⟩]) ∧
    (∀ (db : String → Option StockRow) (t : String) (stock : StockRow),
      db t = some stock →
      (decTruthy stock.current_price && stock.change_in_day.isSome) = true →
      fetchTicker db t FetchOutcome.err =
        [⟨t, stock.change_in_day.getD 0, stock.current_price.getD 0⟩]) ∧
    (∀ (db : String → Option StockRow) (oc : String → FetchOutcome)
        (now : ℤ) (limit : ℕ) (tickers : List String),
      List.Sorted moversDesc (get_top_movers db oc now limit tickers)) ∧
    get_top_movers
      (fun s => if s = "AAPL" then some ⟨some 10, some 50, some ⟨0, true⟩⟩
                else if s = "MSFT" then some ⟨some 20, some 40, none⟩ else none)
      (fun _ => FetchOutcome.err) 0 10 ["AAPL", "MSFT"] =
      [⟨"MSFT", 40, 20⟩, ⟨"AAPL", 5, 10⟩] := by
  refine ⟨?_, ?_, ?_, ?_, ?_⟩
  · intro db now w t rest stock hdb hfresh
    simp [scanCache, hdb, hdb ▸ hfresh]
  · intro db t q hq
    simp [fetchTicker, hq]
  · intro db t stock hdb hrow
    simp [fetchTicker, hdb, hrow]
  · intro db oc now limit tickers
    haveI : IsTotal Mover moversDesc := ⟨fun a b => le_total |b.change| |a.change|⟩
    haveI : IsTrans Mover moversDesc := ⟨fun _ _ _ hab hbc => le_trans hbc hab⟩
    exact (List.sorted_insertionSort moversDesc _).sublist (List.take_sublist _ _)
  · norm_num [get_top_movers, scanCache, refreshBatch, fetchTicker,
      topMoversServesFromCache, decTruthy, List.insertionSort, List.orderedInsert,
      moversDesc]

/-- C10, witness: the stale-fallback clause applied to a concrete row, showing
the stored percentage 40 passed through unconverted. -/
theorem C10_change_unit_mix_witness :
    ((fun s => if s = "NVDA" then
        some (⟨some 30, some 40, none⟩ : StockRow) else none) "NVDA" =
      some (⟨some 30, some 40, none⟩ : StockRow)) ∧
    (decTruthy (some (30 : ℚ)) && (Option.isSome (some (40 : ℚ)))) = true ∧
    fetchTicker
        (fun s => if s = "NVDA" then some ⟨some 30, some 40, none⟩ else none)
        "NVDA" FetchOutcome.err = [⟨"NVDA", (40 : ℚ), 30⟩] :=
  ⟨by decide, by decide,
   C10_change_unit_mix.2.2.1
     (fun s => if s = "NVDA" then some ⟨some 30, some 40, none⟩ else none)
     "NVDA" ⟨some 30, some 40, none⟩ (by decide) (by decide)⟩

end StockCore

